import Mathlib

/-!
Shallow embedding of the request execution and resilience layer of the
`roboat` Roblox API client: the response classifier (`validation.rs`), the
xcsrf retry wrappers and the purchase-outcome mapping (`economy/mod.rs`),
and the identity resolver (`users/mod.rs`).

Network I/O is abstracted: a completed HTTP exchange is a status code, the
optional `x-csrf-token` response header (as raw bytes, since the header may
carry arbitrary bytes) and the outcome of parsing the body as Roblox's
structured error shape.  A function returning `Option α` uses `none` for a
Rust panic (an `unwrap` failure); `Except RoboatError α` mirrors
`Result<T, RoboatError>`.
-/

namespace Roboat

/-- Mirrors `PurchaseLimitedError` from `economy/mod.rs`. -/
inductive PurchaseLimitedError where
  | PendingTransaction
  | ItemNotForSale
  | NotEnoughRobux
  | PriceChanged
  | CannotBuyOwnItem
  | UnknownRobloxErrorMsg (msg : String)
  deriving DecidableEq, Repr

/-- Modelled from the spec: the error taxonomy `RoboatError` is declared in
the crate root, which is not among the provided source files; its
constructors are pinned down by the uses in `validation.rs`,
`economy/mod.rs` and `users/mod.rs` and by the spec's taxonomy (§7).
`ReqwestError` wraps an opaque transport failure, so it is nullary here. -/
inductive RoboatError where
  | ReqwestError
  | MalformedResponse
  | BadRequest
  | InvalidRoblosecurity
  | RoblosecurityNotSet
  | TooManyRequests
  | InternalServerError
  | UnidentifiedStatusCode (code : Nat)
  | UnknownRobloxErrorCode (code : Nat) (message : String)
  | InvalidXcsrf (token : String)
  | XcsrfNotReturned
  | PurchaseLimitedError (e : PurchaseLimitedError)
  deriving DecidableEq, Repr

/-- Mirrors `RobloxErrorRaw` from `validation.rs` (`code: u16, message: String`). -/
structure RobloxErrorRaw where
  code : Nat
  message : String
  deriving DecidableEq, Repr

/-- Outcome of `response.json::<RobloxErrorResponse>()`: either the body is
unparseable as the structured error shape, or it parses to an error list. -/
inductive ErrorBody where
  | unparseable
  | parsed (errors : List RobloxErrorRaw)
  deriving DecidableEq, Repr

/-- One byte of a header value. -/
abbrev Byte := Nat

/-- Mirrors `http::HeaderValue::to_str`, used by `process_403` via
`x.to_str().unwrap()`: succeeds exactly when every byte is visible ASCII
(32..126) or horizontal tab, otherwise errors (and the `unwrap` panics). -/
def headerToStr (bytes : List Byte) : Option String :=
  if bytes.all (fun b => (32 ≤ b && b < 127) || b == 9) then
    some (String.mk (bytes.map Char.ofNat))
  else
    none

/-- Mirrors `Client::process_403` from `validation.rs`.  `header` is the raw
`x-csrf-token` response header when present.  `none` in the result models the
panic of `x.to_str().unwrap()` on a non-visible-ASCII header value. -/
def process_403 (header : Option (List Byte)) (body : ErrorBody) :
    Option RoboatError :=
  match header.map headerToStr with
  | some none => none
  | some (some xcsrf) =>
    match body with
    | .unparseable => some (.InvalidXcsrf xcsrf)
    | .parsed errors =>
      match errors.head? with
      | some error =>
        match error.code with
        | 0 => some (.InvalidXcsrf xcsrf)
        | _ => some (.UnknownRobloxErrorCode error.code error.message)
      | none => some (.InvalidXcsrf xcsrf)
  | none =>
    match body with
    | .unparseable => some .XcsrfNotReturned
    | .parsed errors =>
      match errors.head? with
      | some error =>
        match error.code with
        | 0 => some .XcsrfNotReturned
        | _ => some (.UnknownRobloxErrorCode error.code error.message)
      | none => some .MalformedResponse

/-- Mirrors `Client::process_400` from `validation.rs`. -/
def process_400 (body : ErrorBody) : RoboatError :=
  match body with
  | .unparseable => .BadRequest
  | .parsed errors =>
    match errors.head? with
    | some error => .UnknownRobloxErrorCode error.code error.message
    | none => .BadRequest

/-- A completed HTTP exchange as seen by the validator: the status code
(`status().as_u16()`), the raw `x-csrf-token` response header when present,
and the body's parse outcome as the structured error shape. -/
structure Resp where
  status : Nat
  xcsrfHeader : Option (List Byte)
  body : ErrorBody
  deriving DecidableEq, Repr

/-- Mirrors `Client::handle_non_200_status_codes` from `validation.rs`.
`none` models a panic (only reachable through `process_403`). -/
def handle_non_200_status_codes (r : Resp) :
    Option (Except RoboatError Resp) :=
  match r.status with
  | 200 => some (.ok r)
  | 400 => some (.error (process_400 r.body))
  | 401 => some (.error .InvalidRoblosecurity)
  | 403 => (process_403 r.xcsrfHeader r.body).map .error
  | 429 => some (.error .TooManyRequests)
  | 500 => some (.error .InternalServerError)
  | c => some (.error (.UnidentifiedStatusCode c))

/-- The argument of `validate_request_result`: either a completed response or
a transport-level `reqwest::Error` (opaque). -/
inductive RequestResult where
  | ok (r : Resp)
  | err
  deriving DecidableEq, Repr

/-- Mirrors `Client::validate_request_result` from `validation.rs`. -/
def validate_request_result (rr : RequestResult) :
    Option (Except RoboatError Resp) :=
  match rr with
  | .ok response => handle_non_200_status_codes response
  | .err => some (.error .ReqwestError)

/-! ### Session state and the xcsrf retry wrappers (`economy/mod.rs`) -/

/-- Modelled from the spec: the client's mutable anti-forgery token slot
(`xcsrf`) is a field of `Client` declared in the crate root, which is not
among the provided source files; spec §3 describes it as a mutable string
slot in Session State. -/
structure SessionState where
  xcsrf : String
  deriving DecidableEq, Repr

/-- Modelled from the spec: `Client::set_xcsrf` is declared in the crate
root, not among the provided source files; spec §4.2 step 2 says it writes
the new token into Session State's token slot, overwriting unconditionally. -/
def set_xcsrf (s : SessionState) (t : String) : SessionState :=
  { s with xcsrf := t }

/-- A log entry for one network attempt of a limited-sale call: the xcsrf
token attached to the request and the `(item_id, uaid, price)` arguments. -/
abbrev SaleAttempt := String × Nat × Nat × Nat

/-- Mirrors `Client::put_limited_on_sale` from `economy/mod.rs`.  `net`
abstracts `put_limited_on_sale_internal` (cookie, HTTP PATCH, validation):
it receives the attempt index (0 = first call site, 1 = retry call site),
the token the internal call reads from the session, and the arguments.  The
returned list logs each network attempt made, with the token and arguments
it carried. -/
def put_limited_on_sale
    (net : Nat → String → Nat → Nat → Nat → Except RoboatError Unit)
    (s : SessionState) (item_id uaid price : Nat) :
    Except RoboatError Unit × SessionState × List SaleAttempt :=
  match net 0 s.xcsrf item_id uaid price with
  | .ok x => (.ok x, s, [(s.xcsrf, item_id, uaid, price)])
  | .error e =>
    match e with
    | .InvalidXcsrf new_xcsrf =>
      let s2 := set_xcsrf s new_xcsrf
      (net 1 s2.xcsrf item_id uaid price, s2,
        [(s.xcsrf, item_id, uaid, price), (s2.xcsrf, item_id, uaid, price)])
    | _ => (.error e, s, [(s.xcsrf, item_id, uaid, price)])

/-- A log entry for one network attempt of `take_limited_off_sale`: the
token attached and the `(item_id, uaid)` arguments. -/
abbrev OffSaleAttempt := String × Nat × Nat

/-- Mirrors `Client::take_limited_off_sale` from `economy/mod.rs`, with
`net` abstracting `take_limited_off_sale_internal` as in
`put_limited_on_sale`. -/
def take_limited_off_sale
    (net : Nat → String → Nat → Nat → Except RoboatError Unit)
    (s : SessionState) (item_id uaid : Nat) :
    Except RoboatError Unit × SessionState × List OffSaleAttempt :=
  match net 0 s.xcsrf item_id uaid with
  | .ok x => (.ok x, s, [(s.xcsrf, item_id, uaid)])
  | .error e =>
    match e with
    | .InvalidXcsrf new_xcsrf =>
      let s2 := set_xcsrf s new_xcsrf
      (net 1 s2.xcsrf item_id uaid, s2,
        [(s.xcsrf, item_id, uaid), (s2.xcsrf, item_id, uaid)])
    | _ => (.error e, s, [(s.xcsrf, item_id, uaid)])

/-- A log entry for one network attempt of `purchase_limited`: the token
attached and the `(product_id, price, seller_id, uaid)` arguments in the
order `purchase_limited_internal` receives them. -/
abbrev PurchaseAttempt := String × Nat × Nat × Nat × Nat

/-- Mirrors `Client::purchase_limited` from `economy/mod.rs`, with `net`
abstracting `purchase_limited_internal`. -/
def purchase_limited
    (net : Nat → String → Nat → Nat → Nat → Nat → Except RoboatError Unit)
    (s : SessionState) (product_id seller_id uaid price : Nat) :
    Except RoboatError Unit × SessionState × List PurchaseAttempt :=
  match net 0 s.xcsrf product_id price seller_id uaid with
  | .ok x => (.ok x, s, [(s.xcsrf, product_id, price, seller_id, uaid)])
  | .error e =>
    match e with
    | .InvalidXcsrf new_xcsrf =>
      let s2 := set_xcsrf s new_xcsrf
      (net 1 s2.xcsrf product_id price seller_id uaid, s2,
        [(s.xcsrf, product_id, price, seller_id, uaid),
         (s2.xcsrf, product_id, price, seller_id, uaid)])
    | _ => (.error e, s, [(s.xcsrf, product_id, price, seller_id, uaid)])

/-! ### Purchase-outcome mapping (`purchase_limited_internal`) -/

/-- Modelled from the spec: `PurchaseLimitedResponse` is declared in
`economy/request_types.rs`, which is not among the provided source files;
the fields are pinned by their uses `raw.purchased` and `raw.error_msg` in
`purchase_limited_internal` and by spec §4.5 (a boolean purchased flag and,
when false, a free-text error message). -/
structure PurchaseLimitedResponse where
  purchased : Bool
  error_msg : String
  deriving DecidableEq, Repr

/-- Mirrors the `match raw.purchased { .. }` tail of
`Client::purchase_limited_internal` in `economy/mod.rs` (lines 597-621):
the mapping from the parsed purchase response to the call's result.  The
string match on `raw.error_msg.as_str()` is rendered as an equality chain
over the same literals in the same order. -/
def purchase_outcome (raw : PurchaseLimitedResponse) :
    Except RoboatError Unit :=
  match raw.purchased with
  | true => .ok ()
  | false =>
    if raw.error_msg = "You have a pending transaction. Please wait 1 minute and try again." then
      .error (.PurchaseLimitedError .CannotBuyOwnItem)
    else if raw.error_msg = "You already own this item." then
      .error (.PurchaseLimitedError .CannotBuyOwnItem)
    else if raw.error_msg = "This item is not for sale." then
      .error (.PurchaseLimitedError .ItemNotForSale)
    else if raw.error_msg = "You do not have enough Robux to purchase this item." then
      .error (.PurchaseLimitedError .NotEnoughRobux)
    else if raw.error_msg = "This item has changed price. Please try again." then
      .error (.PurchaseLimitedError .PriceChanged)
    else
      .error (.PurchaseLimitedError (.UnknownRobloxErrorMsg raw.error_msg))

/-- The five exact phrases matched by name in `purchase_limited_internal`
before the wildcard arm. -/
def knownPurchasePhrases : List String :=
  ["You have a pending transaction. Please wait 1 minute and try again.",
   "You already own this item.",
   "This item is not for sale.",
   "You do not have enough Robux to purchase this item.",
   "This item has changed price. Please try again."]

/-! ### Pagination endpoints (`resellers`, `user_sales`) -/

/-- Mirrors `Reseller` from `economy/mod.rs`. -/
structure Reseller where
  user_id : Nat
  name : String
  deriving DecidableEq, Repr

/-- Mirrors `Listing` from `economy/mod.rs`. -/
structure Listing where
  uaid : Nat
  price : Nat
  reseller : Reseller
  serial_number : Option Nat
  deriving DecidableEq, Repr

/-- Mirrors `UserSale` from `economy/mod.rs`. -/
structure UserSale where
  sale_id : Nat
  is_pending : Bool
  user_id : Nat
  user_display_name : String
  robux_received : Nat
  asset_id : Nat
  asset_name : String
  deriving DecidableEq, Repr

/-- Modelled from the spec: the raw seller record of a reseller listing,
declared in `economy/request_types.rs` (not among the provided source
files); fields pinned by the uses `listing.seller.id` and
`listing.seller.name` in `Client::resellers`. -/
structure SellerRaw where
  id : Nat
  name : String
  deriving DecidableEq, Repr

/-- Modelled from the spec: the raw reseller listing record of
`economy/request_types.rs`; fields pinned by the uses in
`Client::resellers`. -/
structure ListingRaw where
  user_asset_id : Nat
  price : Nat
  seller : SellerRaw
  serial_number : Option Nat
  deriving DecidableEq, Repr

/-- Modelled from the spec: `ResellersResponse` of
`economy/request_types.rs`; per spec §3 a page is items plus an optional
continuation cursor (`next_page_cursor = none` models a JSON null). -/
structure ResellersResponse where
  next_page_cursor : Option String
  data : List ListingRaw
  deriving DecidableEq, Repr

/-- The elementwise conversion performed by the loop body in
`Client::resellers` (`economy/mod.rs` lines 211-225). -/
def listingOfRaw (listing : ListingRaw) : Listing :=
  { uaid := listing.user_asset_id
    price := listing.price
    reseller := { user_id := listing.seller.id, name := listing.seller.name }
    serial_number := listing.serial_number }

/-- Mirrors the tail of `Client::resellers` from `economy/mod.rs` after
`validate_request_result` and `parse_to_raw`: `parsed` is the combined
outcome of those two steps, and on success the loop maps each raw listing
in order and the raw cursor is passed through. -/
def resellers (parsed : Except RoboatError ResellersResponse) :
    Except RoboatError (List Listing × Option String) :=
  match parsed with
  | .error e => .error e
  | .ok raw => .ok (raw.data.map listingOfRaw, raw.next_page_cursor)

/-- Modelled from the spec: the raw agent record (purchasing user) used by
`Client::user_sales`; fields pinned by `raw_sale.agent.id` and
`raw_sale.agent.name`. -/
structure AgentRaw where
  id : Nat
  name : String
  deriving DecidableEq, Repr

/-- Modelled from the spec: the raw sale-details record used by
`Client::user_sales`; fields pinned by `raw_sale.details.id` and
`raw_sale.details.name`. -/
structure SaleDetailsRaw where
  id : Nat
  name : String
  deriving DecidableEq, Repr

/-- Modelled from the spec: the raw currency record used by
`Client::user_sales`; field pinned by `raw_sale.currency.amount`. -/
structure CurrencyRaw where
  amount : Nat
  deriving DecidableEq, Repr

/-- Modelled from the spec: a raw transaction entry of
`UserSalesResponse`; fields pinned by the uses in `Client::user_sales`. -/
structure UserSaleRaw where
  id : Nat
  is_pending : Bool
  agent : AgentRaw
  details : SaleDetailsRaw
  currency : CurrencyRaw
  deriving DecidableEq, Repr

/-- Modelled from the spec: `UserSalesResponse` of
`economy/request_types.rs`; per spec §3 a page is items plus an optional
continuation cursor. -/
structure UserSalesResponse where
  next_page_cursor : Option String
  data : List UserSaleRaw
  deriving DecidableEq, Repr

/-- The elementwise conversion performed by the loop body in
`Client::user_sales` (`economy/mod.rs` lines 304-324). -/
def userSaleOfRaw (raw_sale : UserSaleRaw) : UserSale :=
  { sale_id := raw_sale.id
    is_pending := raw_sale.is_pending
    user_id := raw_sale.agent.id
    user_display_name := raw_sale.agent.name
    robux_received := raw_sale.currency.amount
    asset_id := raw_sale.details.id
    asset_name := raw_sale.details.name }

/-- Mirrors the tail of `Client::user_sales` from `economy/mod.rs` after
`validate_request_result` and `parse_to_raw`. -/
def user_sales (parsed : Except RoboatError UserSalesResponse) :
    Except RoboatError (List UserSale × Option String) :=
  match parsed with
  | .error e => .error e
  | .ok raw => .ok (raw.data.map userSaleOfRaw, raw.next_page_cursor)

/-! ### Identity resolver (`users/mod.rs`) -/

/-- Mirrors `UserInformation` from `users/mod.rs`. -/
structure UserInformation where
  user_id : Nat
  username : String
  display_name : String
  deriving DecidableEq, Repr

/-- Modelled from the spec: the `Client` fields read and written by
`user_information_internal` — the roblosecurity credential and the three
identity cache cells — are declared in the crate root, not among the
provided source files; spec §3 describes them (an optional credential set
at construction and a lazily populated identity cache). -/
structure ClientCache where
  roblosecurity : Option String
  user_id : Option Nat
  username : Option String
  display_name : Option String
  deriving DecidableEq, Repr

/-- Mirrors `Client::user_information_internal` from `users/mod.rs`.  `net`
abstracts the HTTP GET to the authenticated-user endpoint followed by
`validate_request_result` and `parse_to_raw`, given the roblosecurity
attached to the cookie.  The returned `Nat` counts network requests
issued. -/
def user_information_internal
    (net : String → Except RoboatError UserInformation) (c : ClientCache) :
    Except RoboatError UserInformation × ClientCache × Nat :=
  match c.roblosecurity with
  | none => (.error .RoblosecurityNotSet, c, 0)
  | some roblosecurity =>
    match net roblosecurity with
    | .error e => (.error e, c, 1)
    | .ok user_information =>
      (.ok user_information,
        { c with
          user_id := some user_information.user_id
          username := some user_information.username
          display_name := some user_information.display_name }, 1)

/-! ### Theorems -/

/-- Claim C2: for a 403 with the refresh token header whose body is
unparseable or has first error code 0, classification yields
`InvalidXcsrf` carrying the header's string value verbatim, and a nonzero
first error code yields `UnknownRobloxErrorCode` with that entry's code and
message (never `InvalidXcsrf`, the result being pinned exactly); without
the header, the token-problem branches yield `XcsrfNotReturned` instead and
a nonzero first code again yields `UnknownRobloxErrorCode`. -/
theorem c2_process_403_classification :
    (∀ (bytes : List Byte) (tok : String), headerToStr bytes = some tok →
      process_403 (some bytes) .unparseable = some (.InvalidXcsrf tok)
      ∧ ∀ (e : RobloxErrorRaw) (rest : List RobloxErrorRaw),
          (e.code = 0 →
            process_403 (some bytes) (.parsed (e :: rest)) =
              some (.InvalidXcsrf tok))
          ∧ (e.code ≠ 0 →
            process_403 (some bytes) (.parsed (e :: rest)) =
              some (.UnknownRobloxErrorCode e.code e.message)))
    ∧ (process_403 none .unparseable = some .XcsrfNotReturned
      ∧ ∀ (e : RobloxErrorRaw) (rest : List RobloxErrorRaw),
          (e.code = 0 →
            process_403 none (.parsed (e :: rest)) = some .XcsrfNotReturned)
          ∧ (e.code ≠ 0 →
            process_403 none (.parsed (e :: rest)) =
              some (.UnknownRobloxErrorCode e.code e.message))) := by
  refine ⟨fun bytes tok hb => ⟨?_, fun e rest => ⟨?_, ?_⟩⟩,
    ?_, fun e rest => ⟨?_, ?_⟩⟩
  · simp [process_403, hb]
  · intro h0
    obtain ⟨c, m⟩ := e
    simp only at h0
    subst h0
    simp [process_403, hb]
  · intro h0
    obtain ⟨c, m⟩ := e
    simp only at h0
    obtain ⟨k, rfl⟩ : ∃ k, c = k + 1 := ⟨c - 1, by omega⟩
    simp [process_403, hb]
  · simp [process_403]
  · intro h0
    obtain ⟨c, m⟩ := e
    simp only at h0
    subst h0
    simp [process_403]
  · intro h0
    obtain ⟨c, m⟩ := e
    simp only at h0
    obtain ⟨k, rfl⟩ : ∃ k, c = k + 1 := ⟨c - 1, by omega⟩
    simp [process_403]

/-- Witness for C2 at the concrete header bytes `[97, 98]` (ASCII `"ab"`). -/
theorem c2_witness :
    headerToStr [97, 98] = some "ab"
    ∧ process_403 (some [97, 98]) .unparseable =
        some (.InvalidXcsrf "ab") :=
  ⟨by decide, (c2_process_403_classification.1 [97, 98] "ab" (by decide)).1⟩

/-- Claim C10: a 403 body that parses with an empty errors list is
classified as `InvalidXcsrf` (with the header's value) when the header is
present, but as `MalformedResponse` — not `XcsrfNotReturned` — when the
header is absent, so the two header cases classify the same body
differently. -/
theorem c10_empty_errors_split :
    (∀ (bytes : List Byte) (tok : String), headerToStr bytes = some tok →
      process_403 (some bytes) (.parsed []) = some (.InvalidXcsrf tok)
      ∧ process_403 (some bytes) (.parsed []) ≠ process_403 none (.parsed []))
    ∧ process_403 none (.parsed []) = some .MalformedResponse
    ∧ process_403 none (.parsed []) ≠ some .XcsrfNotReturned := by
  refine ⟨fun bytes tok hb => ⟨?_, ?_⟩, by simp [process_403], by simp [process_403]⟩
  · simp [process_403, hb]
  · simp [process_403, hb]

/-- Witness for C10 at the concrete header bytes `[97, 98]`. -/
theorem c10_witness :
    headerToStr [97, 98] = some "ab"
    ∧ process_403 (some [97, 98]) (.parsed []) = some (.InvalidXcsrf "ab") :=
  ⟨by decide, (c10_empty_errors_split.1 [97, 98] "ab" (by decide)).1⟩

/-- Claim C5: the validator maps a transport failure to `ReqwestError`,
status 200 to success, 401 to `InvalidRoblosecurity`, 429 to
`TooManyRequests`, 500 to `InternalServerError`, and any status outside
200/400/401/403/429/500 to `UnidentifiedStatusCode` with that status; in
each enumerated case exactly one outcome is produced (the right-hand sides
are single determined values). -/
theorem c5_validate_request_result_dispatch :
    validate_request_result .err = some (.error .ReqwestError)
    ∧ ∀ r : Resp,
      (r.status = 200 → validate_request_result (.ok r) = some (.ok r))
      ∧ (r.status = 401 →
          validate_request_result (.ok r) = some (.error .InvalidRoblosecurity))
      ∧ (r.status = 429 →
          validate_request_result (.ok r) = some (.error .TooManyRequests))
      ∧ (r.status = 500 →
          validate_request_result (.ok r) = some (.error .InternalServerError))
      ∧ (r.status ∉ ([200, 400, 401, 403, 429, 500] : List Nat) →
          validate_request_result (.ok r) =
            some (.error (.UnidentifiedStatusCode r.status))) := by
  refine ⟨rfl, fun r => ⟨?_, ?_, ?_, ?_, ?_⟩⟩ <;>
    obtain ⟨st, hd, bd⟩ := r <;> intro h <;> simp only at h
  · subst h; rfl
  · subst h; rfl
  · subst h; rfl
  · subst h; rfl
  · simp only [List.mem_cons, List.not_mem_nil, or_false, not_or] at h
    obtain ⟨h200, h400, h401, h403, h429, h500⟩ := h
    simp only [validate_request_result, handle_non_200_status_codes]

/-- Witness for C5 at concrete exchanges (status 404 for the catch-all,
status 401 for a fixed arm). -/
theorem c5_witness :
    validate_request_result (.ok ⟨404, none, .unparseable⟩) =
      some (.error (.UnidentifiedStatusCode 404))
    ∧ validate_request_result (.ok ⟨401, none, .unparseable⟩) =
      some (.error .InvalidRoblosecurity) :=
  ⟨((c5_validate_request_result_dispatch.2 ⟨404, none, .unparseable⟩).2.2.2.2)
      (by decide),
   ((c5_validate_request_result_dispatch.2 ⟨401, none, .unparseable⟩).2.1) rfl⟩

/-- Claim C7 (code bug): classification of a 403 is not total over header
values — a non-visible-ASCII `x-csrf-token` header value makes
`process_403` panic in `x.to_str().unwrap()` (modelled by `none`),
regardless of the body, contradicting the spec's no-panic guarantee. -/
theorem c7_process_403_panic :
    process_403 (some [128]) .unparseable = none
    ∧ process_403 (some [128]) (.parsed []) = none := by
  constructor <;> rfl

/-- Claim C1: each of `put_limited_on_sale`, `take_limited_off_sale` and
`purchase_limited` retries exactly once on a first-attempt
`InvalidXcsrf t` — writing `t` into the session token slot, re-invoking the
internal call with the same arguments and the new token, and returning the
second attempt's result unchanged — returns any other first result
immediately with a single attempt, and never makes more than two network
attempts (the attempt log has length at most 2). -/
theorem c1_retry_once_protocol :
    (∀ (net : Nat → String → Nat → Nat → Nat → Except RoboatError Unit)
        (s : SessionState) (item_id uaid price : Nat),
      (∀ t, net 0 s.xcsrf item_id uaid price = .error (.InvalidXcsrf t) →
        put_limited_on_sale net s item_id uaid price =
          (net 1 t item_id uaid price, set_xcsrf s t,
            [(s.xcsrf, item_id, uaid, price), (t, item_id, uaid, price)]))
      ∧ ((∀ t, net 0 s.xcsrf item_id uaid price ≠ .error (.InvalidXcsrf t)) →
        put_limited_on_sale net s item_id uaid price =
          (net 0 s.xcsrf item_id uaid price, s, [(s.xcsrf, item_id, uaid, price)]))
      ∧ (put_limited_on_sale net s item_id uaid price).2.2.length ≤ 2)
    ∧ (∀ (net : Nat → String → Nat → Nat → Except RoboatError Unit)
        (s : SessionState) (item_id uaid : Nat),
      (∀ t, net 0 s.xcsrf item_id uaid = .error (.InvalidXcsrf t) →
        take_limited_off_sale net s item_id uaid =
          (net 1 t item_id uaid, set_xcsrf s t,
            [(s.xcsrf, item_id, uaid), (t, item_id, uaid)]))
      ∧ ((∀ t, net 0 s.xcsrf item_id uaid ≠ .error (.InvalidXcsrf t)) →
        take_limited_off_sale net s item_id uaid =
          (net 0 s.xcsrf item_id uaid, s, [(s.xcsrf, item_id, uaid)]))
      ∧ (take_limited_off_sale net s item_id uaid).2.2.length ≤ 2)
    ∧ (∀ (net : Nat → String → Nat → Nat → Nat → Nat → Except RoboatError Unit)
        (s : SessionState) (product_id seller_id uaid price : Nat),
      (∀ t, net 0 s.xcsrf product_id price seller_id uaid =
          .error (.InvalidXcsrf t) →
        purchase_limited net s product_id seller_id uaid price =
          (net 1 t product_id price seller_id uaid, set_xcsrf s t,
            [(s.xcsrf, product_id, price, seller_id, uaid),
             (t, product_id, price, seller_id, uaid)]))
      ∧ ((∀ t, net 0 s.xcsrf product_id price seller_id uaid ≠
            .error (.InvalidXcsrf t)) →
        purchase_limited net s product_id seller_id uaid price =
          (net 0 s.xcsrf product_id price seller_id uaid, s,
            [(s.xcsrf, product_id, price, seller_id, uaid)]))
      ∧ (purchase_limited net s product_id seller_id uaid price).2.2.length ≤ 2) := by
  refine ⟨fun net s a b c => ⟨fun t ht => ?_, fun hno => ?_, ?_⟩,
    fun net s a b => ⟨fun t ht => ?_, fun hno => ?_, ?_⟩,
    fun net s a b c d => ⟨fun t ht => ?_, fun hno => ?_, ?_⟩⟩
  · simp [put_limited_on_sale, ht, set_xcsrf]
  · cases hnet : net 0 s.xcsrf a b c with
    | ok x => simp [put_limited_on_sale, hnet]
    | error e =>
      cases e
      case InvalidXcsrf t => exact absurd hnet (hno t)
      all_goals simp [put_limited_on_sale, hnet]
  · cases hnet : net 0 s.xcsrf a b c with
    | ok x => simp [put_limited_on_sale, hnet]
    | error e => cases e <;> simp [put_limited_on_sale, hnet, set_xcsrf]
  · simp [take_limited_off_sale, ht, set_xcsrf]
  · cases hnet : net 0 s.xcsrf a b with
    | ok x => simp [take_limited_off_sale, hnet]
    | error e =>
      cases e
      case InvalidXcsrf t => exact absurd hnet (hno t)
      all_goals simp [take_limited_off_sale, hnet]
  · cases hnet : net 0 s.xcsrf a b with
    | ok x => simp [take_limited_off_sale, hnet]
    | error e => cases e <;> simp [take_limited_off_sale, hnet, set_xcsrf]
  · simp [purchase_limited, ht, set_xcsrf]
  · cases hnet : net 0 s.xcsrf a d b c with
    | ok x => simp [purchase_limited, hnet]
    | error e =>
      cases e
      case InvalidXcsrf t => exact absurd hnet (hno t)
      all_goals simp [purchase_limited, hnet]
  · cases hnet : net 0 s.xcsrf a d b c with
    | ok x => simp [purchase_limited, hnet]
    | error e => cases e <;> simp [purchase_limited, hnet, set_xcsrf]

/-- Witness for C1: a network that answers `InvalidXcsrf` once and then
succeeds makes exactly the two logged attempts and returns success. -/
theorem c1_witness :
    put_limited_on_sale
        (fun i _ _ _ _ => if i = 0 then .error (.InvalidXcsrf "t1") else .ok ())
        ⟨"t0"⟩ 1 2 3 =
      (.ok (), ⟨"t1"⟩, [("t0", 1, 2, 3), ("t1", 1, 2, 3)]) :=
  (c1_retry_once_protocol.1
    (fun i _ _ _ _ => if i = 0 then .error (.InvalidXcsrf "t1") else .ok ())
    ⟨"t0"⟩ 1 2 3).1 "t1" rfl

/-- Counterexample to claim C3 as stated: when both internal attempts
answer `InvalidXcsrf`, the public `put_limited_on_sale` does return
`InvalidXcsrf` to its final caller. -/
theorem c3_counterexample :
    (put_limited_on_sale (fun _ _ _ _ _ => .error (.InvalidXcsrf "t"))
        ⟨""⟩ 1 2 3).1 = .error (.InvalidXcsrf "t") := rfl

/-- Claim C3 (amended): a public limited operation surfaces `InvalidXcsrf`
to its final caller exactly when the first attempt returns `InvalidXcsrf`
and the retry with the refreshed token returns `InvalidXcsrf` again; a sole
first-attempt occurrence is always consumed by the retry protocol. -/
theorem c3_invalid_xcsrf_surfaced_iff_double :
    (∀ (net : Nat → String → Nat → Nat → Nat → Except RoboatError Unit)
        (s : SessionState) (item_id uaid price : Nat),
      (∃ u, (put_limited_on_sale net s item_id uaid price).1 =
          .error (.InvalidXcsrf u)) ↔
      (∃ t u, net 0 s.xcsrf item_id uaid price = .error (.InvalidXcsrf t)
        ∧ net 1 t item_id uaid price = .error (.InvalidXcsrf u)))
    ∧ (∀ (net : Nat → String → Nat → Nat → Except RoboatError Unit)
        (s : SessionState) (item_id uaid : Nat),
      (∃ u, (take_limited_off_sale net s item_id uaid).1 =
          .error (.InvalidXcsrf u)) ↔
      (∃ t u, net 0 s.xcsrf item_id uaid = .error (.InvalidXcsrf t)
        ∧ net 1 t item_id uaid = .error (.InvalidXcsrf u)))
    ∧ (∀ (net : Nat → String → Nat → Nat → Nat → Nat → Except RoboatError Unit)
        (s : SessionState) (product_id seller_id uaid price : Nat),
      (∃ u, (purchase_limited net s product_id seller_id uaid price).1 =
          .error (.InvalidXcsrf u)) ↔
      (∃ t u, net 0 s.xcsrf product_id price seller_id uaid =
          .error (.InvalidXcsrf t)
        ∧ net 1 t product_id price seller_id uaid =
          .error (.InvalidXcsrf u))) := by
  refine ⟨fun net s a b c => ?_, fun net s a b => ?_, fun net s a b c d => ?_⟩
  · cases hnet : net 0 s.xcsrf a b c with
    | ok x => simp [put_limited_on_sale, hnet]
    | error e => cases e <;> simp [put_limited_on_sale, hnet, set_xcsrf]
  · cases hnet : net 0 s.xcsrf a b with
    | ok x => simp [take_limited_off_sale, hnet]
    | error e => cases e <;> simp [take_limited_off_sale, hnet, set_xcsrf]
  · cases hnet : net 0 s.xcsrf a d b c with
    | ok x => simp [purchase_limited, hnet]
    | error e => cases e <;> simp [purchase_limited, hnet, set_xcsrf]

/-- Witness for the amended C3: with a network answering `InvalidXcsrf` on
both attempts, the surfaced error is `InvalidXcsrf`. -/
theorem c3_witness :
    ∃ u, (put_limited_on_sale (fun _ _ _ _ _ => .error (.InvalidXcsrf "b"))
        ⟨"a"⟩ 1 2 3).1 = .error (.InvalidXcsrf u) :=
  (c3_invalid_xcsrf_surfaced_iff_double.1
    (fun _ _ _ _ _ => .error (.InvalidXcsrf "b")) ⟨"a"⟩ 1 2 3).mpr
    ⟨"b", "b", rfl, rfl⟩

/-- Claim C4 (code bug): for a purchase response with `purchased = false`
and the remote pending-transaction phrase, the mapping in
`purchase_limited_internal` yields `CannotBuyOwnItem` — not the distinct
`PendingTransaction` variant its own documentation promises for that
phrase. -/
theorem c4_pending_phrase_divergence :
    purchase_outcome
        ⟨false, "You have a pending transaction. Please wait 1 minute and try again."⟩ =
      .error (.PurchaseLimitedError .CannotBuyOwnItem)
    ∧ purchase_outcome
        ⟨false, "You have a pending transaction. Please wait 1 minute and try again."⟩ ≠
      .error (.PurchaseLimitedError .PendingTransaction)
    ∧ PurchaseLimitedError.CannotBuyOwnItem ≠ PurchaseLimitedError.PendingTransaction := by
  refine ⟨rfl, fun h => ?_, by decide⟩
  have e1 : purchase_outcome
      ⟨false, "You have a pending transaction. Please wait 1 minute and try again."⟩ =
      .error (.PurchaseLimitedError .CannotBuyOwnItem) := rfl
  rw [e1] at h
  simp at h

/-- Claim C6: `purchase_limited_internal` maps the exact phrase
"This item is not for sale." to `ItemNotForSale`, and any message outside
the five known exact phrases to `UnknownRobloxErrorMsg` carrying the
message unchanged. -/
theorem c6_purchase_outcome_mapping :
    purchase_outcome ⟨false, "This item is not for sale."⟩ =
      .error (.PurchaseLimitedError .ItemNotForSale)
    ∧ ∀ s : String, s ∉ knownPurchasePhrases →
        purchase_outcome ⟨false, s⟩ =
          .error (.PurchaseLimitedError (.UnknownRobloxErrorMsg s)) := by
  refine ⟨rfl, fun s hs => ?_⟩
  simp only [knownPurchasePhrases, List.mem_cons, List.not_mem_nil, or_false,
    not_or] at hs
  obtain ⟨h1, h2, h3, h4, h5⟩ := hs
  simp [purchase_outcome, h1, h2, h3, h4, h5]

/-- Witness for C6 at the unrecognized message "xyz". -/
theorem c6_witness :
    purchase_outcome ⟨false, "xyz"⟩ =
      .error (.PurchaseLimitedError (.UnknownRobloxErrorMsg "xyz")) :=
  c6_purchase_outcome_mapping.2 "xyz" (by decide)

/-- Claim C8: with no roblosecurity credential set,
`user_information_internal` fails with `RoblosecurityNotSet`, issues zero
network requests, and leaves the cached `user_id`, `username` and
`display_name` cells (the whole client state) unchanged. -/
theorem c8_no_credential_fail_fast :
    ∀ (net : String → Except RoboatError UserInformation) (c : ClientCache),
      c.roblosecurity = none →
      user_information_internal net c = (.error .RoblosecurityNotSet, c, 0) := by
  intro net c h
  simp [user_information_internal, h]

/-- Witness for C8 at an empty cache with no credential. -/
theorem c8_witness :
    user_information_internal (fun _ => .error .ReqwestError)
        ⟨none, none, none, none⟩ =
      (.error .RoblosecurityNotSet, ⟨none, none, none, none⟩, 0) :=
  c8_no_credential_fail_fast (fun _ => .error .ReqwestError)
    ⟨none, none, none, none⟩ rfl

/-- Claim C9: on a successful `resellers` or `user_sales` call, the
returned cursor is exactly the raw response's next-page-cursor field
(independently of the items list), and the returned items are the raw data
entries mapped elementwise in order, so the lengths agree. -/
theorem c9_pagination_passthrough :
    (∀ raw : ResellersResponse,
      resellers (.ok raw) = .ok (raw.data.map listingOfRaw, raw.next_page_cursor)
      ∧ (raw.data.map listingOfRaw).length = raw.data.length)
    ∧ (∀ raw : UserSalesResponse,
      user_sales (.ok raw) = .ok (raw.data.map userSaleOfRaw, raw.next_page_cursor)
      ∧ (raw.data.map userSaleOfRaw).length = raw.data.length) :=
  ⟨fun raw => ⟨rfl, List.length_map raw.data listingOfRaw⟩,
   fun raw => ⟨rfl, List.length_map raw.data userSaleOfRaw⟩⟩

end Roboat
